import Mathlib

/-!
Verification development for the Twitchminert-GUI mining engine.

Shallow embedding of the engine's core operations:
- `src/core/auth.py` (`TwitchAuthManager`): token expiry check, token refresh,
  OAuth callback handling, and header production.  Network POSTs are modelled
  by an explicit oracle argument (`Option TokenResponse`): `none` models a
  request that raises / fails `raise_for_status`, `some r` a 200 response with
  JSON body `r`.  Each operation returns the number of network calls it made.
- `src/miner.py` (`TwitchMiner`): the `_gql_query` result discipline,
  `get_active_drops` filtering, and the `main_loop` / `stop` control flow.
- `src/drops_miner.py` (`TwitchDropsMinerWrapper`, `DropsMinerManager`):
  campaign parsing (`_execute_gql_query`), the campaign-map merge and the
  claimed-drop bookkeeping of `_mining_loop`, and `stop_mining`.
-/

/-! ## Token manager (src/core/auth.py) -/

/-- The `token.json` dictionary held in `TwitchAuthManager.token_data`.
Each field is optional because the Python dict may lack the key. -/
structure TokenData where
  access_token : Option String
  refresh_token : Option String
  obtained_at : Option Int
  expires_in : Option Int
deriving DecidableEq, Repr

/-- JSON body of a successful token-endpoint POST (exchange or refresh). -/
structure TokenResponse where
  access_token : Option String
  refresh_token : Option String
  expires_in : Option Int
deriving DecidableEq, Repr

/-- `TwitchAuthManager._is_token_expired`: true when `token_data` is `None`;
false when either `obtained_at` or `expires_in` is missing; otherwise
`now >= obtained_at + expires_in - 60` (60-second buffer). -/
def isTokenExpired (now : Int) : Option TokenData → Bool
  | none => true
  | some t =>
    match t.obtained_at, t.expires_in with
    | some ob, some ex => decide (now ≥ ob + ex - 60)
    | _, _ => false

/-- Result of `_refresh_token` / `handle_callback`: the Python return value,
the resulting `token_data`, and how many network POSTs were made. -/
structure AuthOpResult where
  ok : Bool
  token_data : Option TokenData
  networkCalls : Nat
deriving DecidableEq, Repr

/-- `TwitchAuthManager._refresh_token`: returns False with no network call when
`token_data` is `None` or has no `refresh_token`; otherwise POSTs once.  On
failure `token_data` is unchanged; on success the response JSON becomes the new
`token_data` with `obtained_at := now`, keeping the old `refresh_token` when
the response omits one. -/
def refreshToken (now : Int) (resp : Option TokenResponse) : Option TokenData → AuthOpResult
  | none => ⟨false, none, 0⟩
  | some t =>
    match t.refresh_token with
    | none => ⟨false, some t, 0⟩
    | some rt =>
      match resp with
      | none => ⟨false, some t, 1⟩
      | some r =>
        let fresh : TokenData :=
          { access_token := r.access_token
            refresh_token := match r.refresh_token with
              | some nrt => some nrt
              | none => some rt
            obtained_at := some now
            expires_in := r.expires_in }
        ⟨true, some fresh, 1⟩

/-- `TwitchAuthManager.handle_callback (code, state)`: when the supplied state
differs from the stored one it returns False before any network traffic and
leaves `token_data` untouched; otherwise it POSTs the code exchange once, and
on success stores the response JSON with `obtained_at := now`. -/
def handleCallback (now : Int) (storedState givenState : Option String)
    (resp : Option TokenResponse) (td : Option TokenData) : AuthOpResult :=
  if givenState = storedState then
    match resp with
    | none => ⟨false, td, 1⟩
    | some r =>
      let fresh : TokenData :=
        { access_token := r.access_token
          refresh_token := r.refresh_token
          obtained_at := some now
          expires_in := r.expires_in }
      ⟨true, some fresh, 1⟩
  else ⟨false, td, 0⟩

/-- Result of `get_auth_headers`: the headers dict (as an association list),
the resulting `token_data`, and the number of network POSTs made. -/
structure HeadersResult where
  headers : List (String × String)
  token_data : Option TokenData
  networkCalls : Nat
deriving DecidableEq, Repr

/-- `TwitchAuthManager.get_auth_headers`: empty dict when `token_data` is
falsy; otherwise refresh when expired (ignoring the refresh result), then
return Bearer headers if an `access_token` is present, else an empty dict. -/
def getAuthHeaders (now : Int) (clientId : String) (resp : Option TokenResponse)
    (td : Option TokenData) : HeadersResult :=
  match td with
  | none => ⟨[], none, 0⟩
  | some t =>
    let afterRefresh :=
      if isTokenExpired now (some t) then
        let r := refreshToken now resp (some t)
        (r.token_data, r.networkCalls)
      else (some t, 0)
    match afterRefresh.1 with
    | some t2 =>
      match t2.access_token with
      | some tok =>
        ⟨[("Authorization", "Bearer " ++ tok), ("Client-Id", clientId)], some t2, afterRefresh.2⟩
      | none => ⟨[], some t2, afterRefresh.2⟩
    | none => ⟨[], none, afterRefresh.2⟩

/-! ## GQL client primitive (src/miner.py `_gql_query`) -/

/-- Outcome of the HTTP POST inside `_gql_query`: either the request raised
(network/timeout failure), or a response arrived with a status code, an
`errors` key present or not, and an optional `data` payload. -/
inductive TransportResult (α : Type) where
  | failure : TransportResult α
  | response (status : Nat) (hasErrors : Bool) (payload : Option α) : TransportResult α
deriving DecidableEq, Repr

/-- `TwitchMiner._gql_query` result discipline: `None` on exception, `None` on
non-200 status, `None` when the body has an `errors` key, otherwise
`data.get("data")`. -/
def gqlQuery {α : Type} : TransportResult α → Option α
  | .failure => none
  | .response status hasErrors payload =>
    if status = 200 then (if hasErrors then none else payload) else none

/-! ## Active drops (src/miner.py `get_active_drops`) -/

/-- A drop node of the `DropsEntitlementStatus` response. -/
structure DropNode where
  id : String
  entitlementId : String
  isClaimed : Bool
  isClaimable : Bool
  name : String
  requiredMinutesWatched : Nat
  minutesWatched : Nat
  availableAt : String
  expiresAt : String
  gameName : String
  campaignTitle : String
deriving DecidableEq, Repr

/-- The dict appended by `get_active_drops` for each kept node. -/
structure DropInfo where
  id : String
  entitlementId : String
  name : String
  game : String
  campaign : String
  minutesWatched : Nat
  requiredMinutes : Nat
  expiresAt : String
deriving DecidableEq, Repr

/-- Projection of a drop node to the dict built by `get_active_drops`. -/
def toDropInfo (n : DropNode) : DropInfo :=
  { id := n.id
    entitlementId := n.entitlementId
    name := n.name
    game := n.gameName
    campaign := n.campaignTitle
    minutesWatched := n.minutesWatched
    requiredMinutes := n.requiredMinutesWatched
    expiresAt := n.expiresAt }

/-- `currentUser.drops` connection: the list of edge nodes. -/
structure DropsConnection where
  edges : List DropNode
deriving DecidableEq, Repr

/-- `currentUser` object of the drops response; `drops` key may be absent. -/
structure CurrentUserDrops where
  drops : Option DropsConnection
deriving DecidableEq, Repr

/-- `data` object of the drops response; `currentUser` may be absent/null. -/
structure DropsData where
  currentUser : Option CurrentUserDrops
deriving DecidableEq, Repr

/-- `TwitchMiner.get_active_drops` post-processing: `[]` when the query failed
or any level of the response is missing; otherwise the loop over edges that
appends the projected dict for every node with `isClaimable` and not
`isClaimed`. -/
def getActiveDrops (data : Option DropsData) : List DropInfo :=
  match data with
  | none => []
  | some d =>
    match d.currentUser with
    | none => []
    | some u =>
      match u.drops with
      | none => []
      | some conn =>
        conn.edges.foldl
          (fun acc n => if n.isClaimable && !n.isClaimed then acc ++ [toDropInfo n] else acc) []

/-! ## Campaign parsing and the campaign map (src/drops_miner.py) -/

/-- A drop entry of the `dropCampaigns` response used by
`TwitchDropsMinerWrapper._execute_gql_query`. -/
structure RawDropNode where
  id : String
  name : String
  totalRewards : Nat
  claimedRewards : Nat
deriving DecidableEq, Repr

/-- A campaign node of the `dropCampaigns` response. -/
structure RawCampaignNode where
  id : String
  gameId : String
  gameName : String
  name : String
  status : String
  startAt : String
  endAt : String
  description : String
  drops : List RawDropNode
deriving DecidableEq, Repr

/-- The `DropCampaign` dataclass. -/
structure DropCampaign where
  campaign_id : String
  game_title : String
  game_id : String
  total_rewards : Nat
  claimed_rewards : Nat
  active : Bool
  created_at : String
  ends_at : String
  description : String
  image_url : String
  required_minutes_watched : Nat
deriving DecidableEq, Repr

/-- The `DropCampaign(...)` construction inside `_execute_gql_query`:
`total_rewards` is the NUMBER of drop entries, while `claimed_rewards` is the
SUM of their `claimedRewards` values. -/
def parseCampaign (c : RawCampaignNode) : DropCampaign :=
  { campaign_id := c.id
    game_title := c.gameName
    game_id := c.gameId
    total_rewards := c.drops.length
    claimed_rewards := (c.drops.map RawDropNode.claimedRewards).sum
    active := c.status == "ACTIVE"
    created_at := c.startAt
    ends_at := c.endAt
    description := c.description
    image_url := ""
    required_minutes_watched := 0 }

/-- `TwitchDropsMinerWrapper._execute_gql_query`: `[]` on any failure,
otherwise the parsed campaign list in response order. -/
def executeGqlQuery (resp : Option (List RawCampaignNode)) : List DropCampaign :=
  match resp with
  | none => []
  | some raw => raw.map parseCampaign

/-- The `self.campaigns` dict of `DropsMinerManager`, as an association list
keyed by campaign id (Python dict: replace in place, append when new). -/
abbrev CampaignMap := List (String × DropCampaign)

/-- One `self.campaigns[campaign.campaign_id] = campaign` assignment. -/
def insertCampaign : CampaignMap → DropCampaign → CampaignMap
  | [], c => [(c.campaign_id, c)]
  | (k, v) :: rest, c =>
    if k = c.campaign_id then (k, c) :: rest
    else (k, v) :: insertCampaign rest c

/-- The merge loop of `_mining_loop`: assign each fresh campaign in order. -/
def mergeCampaigns (m : CampaignMap) (fresh : List DropCampaign) : CampaignMap :=
  fresh.foldl insertCampaign m

/-- Dict lookup `self.campaigns[cid]`. -/
def lookupCampaign : CampaignMap → String → Option DropCampaign
  | [], _ => none
  | (k, v) :: rest, cid => if k = cid then some v else lookupCampaign rest cid

/-- Dict values `self.campaigns.values()`. -/
def campaignValues (m : CampaignMap) : List DropCampaign := m.map Prod.snd

/-! ## The mining loop cycle (src/drops_miner.py `_mining_loop`) -/

/-- The `DropStatus` enum. -/
inductive DropStatus where
  | pending
  | in_progress
  | claimed
  | failed
  | expired
deriving DecidableEq, Repr

/-- The `MinedDrop` dataclass. -/
structure MinedDrop where
  campaign_id : String
  reward_id : String
  reward_name : String
  game_title : String
  claimed : Bool
  status : DropStatus
  claimed_at : Option String
  mining_duration_seconds : Nat
deriving DecidableEq, Repr

/-- The `MinedDrop(...)` record built by `_mining_loop` for a campaign:
`claimed := True`, `status := CLAIMED`, duration the 300s check interval. -/
def minedDropFor (c : DropCampaign) (nowIso : String) : MinedDrop :=
  { campaign_id := c.campaign_id
    reward_id := "reward_" ++ c.campaign_id
    reward_name := c.game_title
    game_title := c.game_title
    claimed := true
    status := DropStatus.claimed
    claimed_at := some nowIso
    mining_duration_seconds := 300 }

/-- The claim bookkeeping of one `_mining_loop` cycle: for every campaign in
the map that is active with `claimed_rewards < total_rewards`, a `MinedDrop`
marked CLAIMED is produced.  No other condition is consulted. -/
def cycleClaims (cs : List DropCampaign) (nowIso : String) : List MinedDrop :=
  cs.filterMap (fun c =>
    if c.active ∧ c.claimed_rewards < c.total_rewards then some (minedDropFor c nowIso)
    else none)

/-- In-memory state of `DropsMinerManager` touched by one cycle. -/
structure ManagerState where
  campaigns : CampaignMap
  mined_drops : List MinedDrop
  total_drops_claimed : Nat
deriving DecidableEq, Repr

/-- One cycle of `DropsMinerManager._mining_loop` (wrapper present): merge the
fresh campaigns into the map, then append a CLAIMED `MinedDrop` for every
active campaign with unclaimed rewards and bump the counter.  The second
component counts the claim-mutation GQL calls issued by the cycle: the loop
body never calls `claim_drop`, so it is 0. -/
def miningCycle (st : ManagerState) (fresh : List DropCampaign) (nowIso : String) :
    ManagerState × Nat :=
  let merged := mergeCampaigns st.campaigns fresh
  let newDrops := cycleClaims (campaignValues merged) nowIso
  (⟨merged, st.mined_drops ++ newDrops, st.total_drops_claimed + newDrops.length⟩, 0)

/-! ## Loop control flow (src/drops_miner.py, src/miner.py) -/

/-- The `MinerStatus` enum. -/
inductive MinerStatus where
  | idle
  | initializing
  | running
  | paused
  | stopped
  | error
deriving DecidableEq, Repr

/-- How one cycle body ended: normally, by task cancellation, or by raising. -/
inductive CycleOutcome where
  | ok
  | cancelled
  | err
deriving DecidableEq, Repr

/-- What the loop does after a cycle: sleep some seconds and iterate again,
or leave the loop. -/
inductive LoopAction where
  | sleepContinue (seconds : Nat)
  | exitLoop
deriving DecidableEq, Repr

/-- One iteration of `DropsMinerManager._mining_loop`: exit when status is not
RUNNING; a `CancelledError` breaks the loop; any other exception is caught in
the loop body and followed by a 30s sleep; a normal cycle sleeps the 300s
check interval.  The loop never writes `self.status`. -/
def miningLoopStep (status : MinerStatus) (outcome : CycleOutcome) : LoopAction × MinerStatus :=
  if status = MinerStatus.running then
    match outcome with
    | .ok => (.sleepContinue 300, status)
    | .cancelled => (.exitLoop, status)
    | .err => (.sleepContinue 30, status)
  else (.exitLoop, status)

/-- One iteration of `TwitchMiner.main_loop`: the `try` wraps the whole
`while`, so an exception inside a cycle escapes the loop and the `finally`
sets `is_running := False`; a normal cycle sleeps `check_interval` and
iterates.  The Bool component is `is_running` afterwards. -/
def mainLoopStep (check_interval : Nat) (is_running hasWatchTasks : Bool)
    (outcome : CycleOutcome) : LoopAction × Bool :=
  if is_running && hasWatchTasks then
    match outcome with
    | .ok => (.sleepContinue check_interval, true)
    | .cancelled => (.exitLoop, false)
    | .err => (.exitLoop, false)
  else (.exitLoop, is_running)

/-! ## Stop behaviour (src/miner.py `stop`, src/drops_miner.py `stop_mining`) -/

/-- A watch-heartbeat task spawned by `main_loop` via `asyncio.create_task`. -/
structure WatchTask where
  channel : String
  finished : Bool
deriving DecidableEq, Repr

/-- The `TwitchMiner` state relevant to `stop`. -/
structure TwitchMinerState where
  is_running : Bool
  watchTasks : List WatchTask
deriving DecidableEq, Repr

/-- `TwitchMiner.stop`: sets `is_running := False` and returns immediately;
it does not cancel, await, or otherwise touch the watch tasks. -/
def minerStop (st : TwitchMinerState) : TwitchMinerState :=
  { st with is_running := false }

/-- The `DropsMinerManager` state relevant to `stop_mining`. -/
structure ManagerTasks where
  status : MinerStatus
  miningTaskRunning : Bool
deriving DecidableEq, Repr

/-- `DropsMinerManager.stop_mining`: cancels `mining_task`, awaits its
cooperative exit (swallowing `CancelledError`), then sets status STOPPED. -/
def stopMining (st : ManagerTasks) : ManagerTasks :=
  { st with miningTaskRunning := false, status := MinerStatus.stopped }

/-! ## Concrete instances used in counterexamples and scenario checks -/

/-- An active campaign with one unclaimed reward (claimed 0 of 1) and a
nonzero watch requirement. -/
def c1Campaign : DropCampaign :=
  ⟨"camp1", "GameX", "g1", 1, 0, true, "", "", "", "", 100⟩

/-- A raw campaign whose single drop entry reports `claimedRewards = 2`:
parsing yields `total_rewards = 1` but `claimed_rewards = 2`. -/
def c2RawCampaign : RawCampaignNode :=
  ⟨"c2x", "g", "G", "N", "ACTIVE", "", "", "", [⟨"d1", "D", 1, 2⟩]⟩

/-- A raw campaign whose single drop entry reports `claimedRewards = 1`. -/
def c2GoodRaw : RawCampaignNode :=
  ⟨"cg", "g", "G", "N", "ACTIVE", "", "", "", [⟨"d1", "D", 1, 1⟩]⟩

/-- A claimable, unclaimed drop node. -/
def c5Drop1 : DropNode :=
  ⟨"drop1", "ent1", false, true, "RewardA", 120, 130, "a1", "e1", "GameX", "CampX"⟩

/-- A drop node that is not claimable. -/
def c5Drop2 : DropNode :=
  ⟨"drop2", "ent2", false, false, "RewardB", 240, 10, "a2", "e2", "GameY", "CampY"⟩

/-- A stored campaign with previously observed `claimed_rewards = 1`. -/
def c7Old : DropCampaign :=
  ⟨"c7", "GameZ", "g7", 2, 1, true, "", "", "", "", 0⟩

/-- A freshly fetched campaign with the same id reporting `claimed_rewards = 0`. -/
def c7New : DropCampaign :=
  ⟨"c7", "GameZ", "g7", 2, 0, true, "", "", "", "", 0⟩

/-! ## Helper lemmas -/

theorem sum_le_length_of_le_one (l : List Nat) (h : ∀ x ∈ l, x ≤ 1) : l.sum ≤ l.length := by
  induction l with
  | nil => simp
  | cons a t ih =>
    simp only [List.sum_cons, List.length_cons]
    have ha : a ≤ 1 := h a (List.mem_cons_self a t)
    have ht := ih (fun x hx => h x (List.mem_cons_of_mem a hx))
    omega

theorem parseCampaign_claimed_le (rc : RawCampaignNode)
    (h : ∀ d ∈ rc.drops, d.claimedRewards ≤ 1) :
    (parseCampaign rc).claimed_rewards ≤ (parseCampaign rc).total_rewards := by
  have hs := sum_le_length_of_le_one (rc.drops.map RawDropNode.claimedRewards) ?_
  · simpa [parseCampaign] using hs
  · intro x hx
    rcases List.mem_map.mp hx with ⟨d, hd, rfl⟩
    exact h d hd

theorem mem_campaignValues_insertCampaign (m : CampaignMap) (c0 c : DropCampaign)
    (h : c ∈ campaignValues (insertCampaign m c0)) : c ∈ campaignValues m ∨ c = c0 := by
  induction m with
  | nil =>
    simp [insertCampaign, campaignValues] at h
    exact Or.inr h
  | cons kv rest ih =>
    obtain ⟨k, v⟩ := kv
    by_cases hk : k = c0.campaign_id
    · simp [insertCampaign, hk, campaignValues] at h ⊢
      rcases h with h | h
      · exact Or.inr h
      · exact Or.inl (Or.inr h)
    · simp [insertCampaign, hk, campaignValues] at h ⊢
      rcases h with h | h
      · exact Or.inl (Or.inl h)
      · rcases ih (by simpa [campaignValues] using h) with h2 | h2
        · exact Or.inl (Or.inr (by simpa [campaignValues] using h2))
        · exact Or.inr h2

theorem campaignValues_mergeCampaigns_pres (P : DropCampaign → Prop) :
    ∀ (fresh : List DropCampaign) (m : CampaignMap),
      (∀ c ∈ campaignValues m, P c) → (∀ c ∈ fresh, P c) →
      ∀ c ∈ campaignValues (mergeCampaigns m fresh), P c := by
  intro fresh
  induction fresh with
  | nil => intro m hm _ c hc; exact hm c hc
  | cons c0 rest ih =>
    intro m hm hf c hc
    refine ih (insertCampaign m c0) ?_ (fun x hx => hf x (List.mem_cons_of_mem c0 hx)) c hc
    intro x hx
    rcases mem_campaignValues_insertCampaign m c0 x hx with h | h
    · exact hm x h
    · exact h ▸ hf c0 (List.mem_cons_self c0 rest)

theorem lookupCampaign_insertCampaign_self (m : CampaignMap) (c : DropCampaign) :
    lookupCampaign (insertCampaign m c) c.campaign_id = some c := by
  induction m with
  | nil => simp [insertCampaign, lookupCampaign]
  | cons kv rest ih =>
    obtain ⟨k, v⟩ := kv
    by_cases hk : k = c.campaign_id
    · simp [insertCampaign, lookupCampaign, hk]
    · simp [insertCampaign, lookupCampaign, hk, ih]

theorem lookupCampaign_insertCampaign_ne (m : CampaignMap) (c : DropCampaign) (cid : String)
    (h : cid ≠ c.campaign_id) :
    lookupCampaign (insertCampaign m c) cid = lookupCampaign m cid := by
  induction m with
  | nil =>
    have hne : c.campaign_id ≠ cid := Ne.symm h
    simp [insertCampaign, lookupCampaign, hne]
  | cons kv rest ih =>
    obtain ⟨k, v⟩ := kv
    by_cases hk : k = c.campaign_id
    · subst hk
      have hne : ¬ c.campaign_id = cid := fun hh => h hh.symm
      simp [insertCampaign, lookupCampaign, hne]
    · by_cases hkc : k = cid
      · subst hkc
        simp [insertCampaign, lookupCampaign, hk]
      · simp [insertCampaign, lookupCampaign, hk, hkc, ih]

theorem lookupCampaign_mergeCampaigns_notin :
    ∀ (fresh : List DropCampaign) (m : CampaignMap) (cid : String),
      cid ∉ fresh.map DropCampaign.campaign_id →
      lookupCampaign (mergeCampaigns m fresh) cid = lookupCampaign m cid := by
  intro fresh
  induction fresh with
  | nil => intro m cid _; rfl
  | cons c rest ih =>
    intro m cid h
    simp only [List.map_cons, List.mem_cons] at h
    push_neg at h
    calc lookupCampaign (mergeCampaigns (insertCampaign m c) rest) cid
        = lookupCampaign (insertCampaign m c) cid := ih (insertCampaign m c) cid h.2
      _ = lookupCampaign m cid := lookupCampaign_insertCampaign_ne m c cid h.1

theorem getActiveDrops_foldl_eq (edges : List DropNode) (acc : List DropInfo) :
    edges.foldl
        (fun acc n => if n.isClaimable && !n.isClaimed then acc ++ [toDropInfo n] else acc) acc
      = acc ++ (edges.filter (fun n => n.isClaimable && !n.isClaimed)).map toDropInfo := by
  induction edges generalizing acc with
  | nil => simp
  | cons n rest ih =>
    simp only [List.foldl_cons, List.filter_cons]
    by_cases h : (n.isClaimable && !n.isClaimed) = true
    · rw [if_pos h, if_pos h, ih, List.map_cons, List.append_assoc, List.singleton_append]
    · rw [if_neg h, if_neg h, ih]

/-! ## Claim C1 -/

/-- C1 counterexample: starting from an empty manager state, one cycle over a
single active campaign with `claimed_rewards = 0 < 1 = total_rewards`
(and `required_minutes_watched = 100`) records a drop with `claimed = true`
and status CLAIMED while the cycle issues zero claim-mutation calls — so the
CLAIMED flag is not backed by any claim response, refuting the claim. -/
theorem c1_claimed_without_claim_response :
    ((miningCycle ⟨[], [], 0⟩ [c1Campaign] "t0").1.mined_drops.any
        (fun d => d.claimed && decide (d.status = DropStatus.claimed))) = true
    ∧ (miningCycle ⟨[], [], 0⟩ [c1Campaign] "t0").2 = 0 := by
  decide

/-- C1 amended: a drop record marked CLAIMED is produced in a poll cycle
exactly when its campaign is active with `claimed_rewards < total_rewards`
after the merge; every such record has `claimed = true` and status CLAIMED,
and the cycle issues no claim-mutation GQL call at all, so the flag attests
neither a watch-minutes observation nor a claim response. -/
theorem c1_cycle_claim_characterization (cs : List DropCampaign) (nowIso : String)
    (d : MinedDrop) :
    (d ∈ cycleClaims cs nowIso
        ↔ ∃ c, c ∈ cs ∧ c.active ∧ c.claimed_rewards < c.total_rewards
            ∧ d = minedDropFor c nowIso)
    ∧ (∀ st fresh,
        (miningCycle st fresh nowIso).2 = 0
        ∧ (miningCycle st fresh nowIso).1.mined_drops
            = st.mined_drops
              ++ cycleClaims (campaignValues (mergeCampaigns st.campaigns fresh)) nowIso)
    ∧ (∀ c : DropCampaign,
        (minedDropFor c nowIso).claimed = true
        ∧ (minedDropFor c nowIso).status = DropStatus.claimed) := by
  refine ⟨?_, fun st fresh => ⟨rfl, rfl⟩, fun c => ⟨rfl, rfl⟩⟩
  constructor
  · intro hd
    rcases List.mem_filterMap.mp hd with ⟨c, hc, heq⟩
    by_cases h : c.active ∧ c.claimed_rewards < c.total_rewards
    · rw [if_pos h] at heq
      exact ⟨c, hc, h.1, h.2, (Option.some.inj heq).symm⟩
    · rw [if_neg h] at heq
      cases heq
  · rintro ⟨c, hc, h1, h2, rfl⟩
    exact List.mem_filterMap.mpr ⟨c, hc, by rw [if_pos ⟨h1, h2⟩]⟩

/-! ## Claim C2 -/

/-- C2 counterexample: a fetched campaign whose single drop entry reports
`claimedRewards = 2` parses to `total_rewards = 1`, `claimed_rewards = 2`
(the parser counts entries for the total but sums `claimedRewards` for the
claimed count); after merging it into an empty map the stored campaign
violates `claimed_rewards ≤ total_rewards`. -/
theorem c2_invariant_violated :
    lookupCampaign (mergeCampaigns [] (executeGqlQuery (some [c2RawCampaign]))) "c2x"
      = some (parseCampaign c2RawCampaign)
    ∧ ¬ ((parseCampaign c2RawCampaign).claimed_rewards
          ≤ (parseCampaign c2RawCampaign).total_rewards) := by
  decide

/-- C2 amended: after a merge of freshly parsed campaign data, every stored
campaign satisfies `claimed_rewards ≤ total_rewards`, provided every campaign
already in the map satisfied it and every fetched drop entry reports
`claimedRewards ≤ 1` (the parser makes the invariant false as soon as one
entry reports 2 or more). -/
theorem c2_merge_invariant (m : CampaignMap) (raw : List RawCampaignNode)
    (hm : ∀ c ∈ campaignValues m, c.claimed_rewards ≤ c.total_rewards)
    (hraw : ∀ rc ∈ raw, ∀ d ∈ rc.drops, d.claimedRewards ≤ 1) :
    ∀ c ∈ campaignValues (mergeCampaigns m (executeGqlQuery (some raw))),
      c.claimed_rewards ≤ c.total_rewards := by
  refine campaignValues_mergeCampaigns_pres _ _ m hm ?_
  intro c hc
  rcases List.mem_map.mp hc with ⟨rc, hrc, rfl⟩
  exact parseCampaign_claimed_le rc (hraw rc hrc)

/-- C2 witness: the amended invariant applied to an empty map and one fetched
campaign whose single drop entry reports `claimedRewards = 1`. -/
theorem c2_merge_invariant_witness :
    (parseCampaign c2GoodRaw).claimed_rewards ≤ (parseCampaign c2GoodRaw).total_rewards := by
  have h := c2_merge_invariant [] [c2GoodRaw] (by decide) (by decide)
  exact h (parseCampaign c2GoodRaw) (by decide)

/-! ## Claim C3 -/

/-- C3 counterexample: credentials with `obtained_at = 0`, `expires_in = 100`
and NO refresh_token, at `now = 1000`: the expiry condition
`now ≥ obtained_at + expires_in - 60` holds, yet `get_auth_headers` makes
zero network refresh calls (`_refresh_token` bails out before the POST when
`refresh_token` is absent), refuting the claimed "if and only if". -/
theorem c3_no_refresh_without_refresh_token :
    isTokenExpired 1000 (some ⟨some "stale", none, some 0, some 100⟩) = true
    ∧ (getAuthHeaders 1000 "cid" (some ⟨some "new", some "r2", some 3600⟩)
          (some ⟨some "stale", none, some 0, some 100⟩)).networkCalls = 0 := by
  decide

/-- C3 amended: for credentials carrying `obtained_at`, `expires_in` AND a
`refresh_token`, `get_auth_headers` makes a network refresh call if and only
if `now ≥ obtained_at + expires_in - 60` (exactly one call when it does); a
successful refresh stores `obtained_at := now` (keeping the old refresh_token
when the response omits one), and a call with a token far from expiry makes
zero refresh calls and leaves the credentials unchanged. -/
theorem c3_refresh_iff (now ob ex : Int) (ak rt cid : String) (resp : Option TokenResponse) :
    ((getAuthHeaders now cid resp (some ⟨some ak, some rt, some ob, some ex⟩)).networkCalls
        = if now ≥ ob + ex - 60 then 1 else 0)
    ∧ (∀ r : TokenResponse, resp = some r → now ≥ ob + ex - 60 →
        (getAuthHeaders now cid resp (some ⟨some ak, some rt, some ob, some ex⟩)).token_data
          = some ⟨r.access_token,
                  (match r.refresh_token with | some nrt => some nrt | none => some rt),
                  some now, r.expires_in⟩)
    ∧ (¬ now ≥ ob + ex - 60 →
        getAuthHeaders now cid resp (some ⟨some ak, some rt, some ob, some ex⟩)
          = ⟨[("Authorization", "Bearer " ++ ak), ("Client-Id", cid)],
             some ⟨some ak, some rt, some ob, some ex⟩, 0⟩) := by
  by_cases hx : now ≥ ob + ex - 60
  · cases resp with
    | none =>
      refine ⟨?_, ?_, fun hnx => absurd hx hnx⟩
      · simp [getAuthHeaders, isTokenExpired, refreshToken, hx]
      · intro r hr
        cases hr
    | some r =>
      refine ⟨?_, ?_, fun hnx => absurd hx hnx⟩
      · cases hak : r.access_token <;>
          simp [getAuthHeaders, isTokenExpired, refreshToken, hx, hak]
      · intro r2 hr2 _
        rw [Option.some.inj hr2] at *
        cases hak : r2.access_token <;>
          simp [getAuthHeaders, isTokenExpired, refreshToken, hx, hak]
  · refine ⟨?_, ?_, fun _ => ?_⟩
    · simp [getAuthHeaders, isTokenExpired, hx]
    · intro r hr hx2
      exact absurd hx2 hx
    · simp [getAuthHeaders, isTokenExpired, hx]

/-- C3 witness: at `now = 10000` with `obtained_at = 6300 = now - 3700` and
`expires_in = 3600`, exactly one refresh call is made and a successful
refresh stores `obtained_at = 10000`; with the fresh token
(`obtained_at = 10000`) a second call makes zero refresh calls. -/
theorem c3_refresh_iff_witness :
    (getAuthHeaders 10000 "ci" (some ⟨some "new", none, some 3600⟩)
        (some ⟨some "old", some "rtok", some 6300, some 3600⟩)).networkCalls = 1
    ∧ (getAuthHeaders 10000 "ci" (some ⟨some "new", none, some 3600⟩)
          (some ⟨some "old", some "rtok", some 6300, some 3600⟩)).token_data
        = some ⟨some "new", some "rtok", some 10000, some 3600⟩
    ∧ (getAuthHeaders 10000 "ci" none
          (some ⟨some "new", some "rtok", some 10000, some 3600⟩)).networkCalls = 0 := by
  have h1 := c3_refresh_iff 10000 6300 3600 "old" "rtok" "ci"
    (some ⟨some "new", none, some 3600⟩)
  have h2 := c3_refresh_iff 10000 10000 3600 "new" "rtok" "ci" none
  refine ⟨?_, ?_, ?_⟩
  · rw [h1.1]
    decide
  · exact h1.2.1 ⟨some "new", none, some 3600⟩ rfl (by decide)
  · rw [h2.1]
    decide

/-! ## Claim C4 -/

/-- C4 confirmed: calling `handle_callback` with a state different from the
stored one fails (returns False, the state-mismatch branch), makes no network
call, and leaves the stored credentials unchanged — for every code-exchange
oracle and every prior credential state. -/
theorem c4_state_mismatch_no_network (now : Int) (storedState givenState : Option String)
    (resp : Option TokenResponse) (td : Option TokenData)
    (h : givenState ≠ storedState) :
    handleCallback now storedState givenState resp td = ⟨false, td, 0⟩ := by
  simp [handleCallback, h]

/-- C4 witness: a concrete mismatching state, with credentials present. -/
theorem c4_state_mismatch_no_network_witness :
    handleCallback 5 (some "issued") (some "forged") (some ⟨some "a", none, some 100⟩)
        (some ⟨some "old", some "r", some 0, some 50⟩)
      = ⟨false, some ⟨some "old", some "r", some 0, some 50⟩, 0⟩ :=
  c4_state_mismatch_no_network 5 (some "issued") (some "forged")
    (some ⟨some "a", none, some 100⟩) (some ⟨some "old", some "r", some 0, some 50⟩)
    (by decide)

/-! ## Claim C5 -/

/-- C5 confirmed: `get_active_drops` returns exactly the projection of the
drop nodes with `isClaimable = true` and `isClaimed = false`, in response
order; in particular the scenario response with one claimable unclaimed drop
and one non-claimable drop yields exactly the first. -/
theorem c5_active_drops_filter :
    (∀ edges : List DropNode,
        getActiveDrops (some ⟨some ⟨some ⟨edges⟩⟩⟩)
          = (edges.filter (fun n => n.isClaimable && !n.isClaimed)).map toDropInfo)
    ∧ getActiveDrops (some ⟨some ⟨some ⟨[c5Drop1, c5Drop2]⟩⟩⟩) = [toDropInfo c5Drop1] := by
  have hgen : ∀ edges : List DropNode,
      getActiveDrops (some ⟨some ⟨some ⟨edges⟩⟩⟩)
        = (edges.filter (fun n => n.isClaimable && !n.isClaimed)).map toDropInfo := by
    intro edges
    have h := getActiveDrops_foldl_eq edges []
    simpa [getActiveDrops] using h
  refine ⟨hgen, ?_⟩
  rw [hgen [c5Drop1, c5Drop2]]
  decide

/-! ## Claim C6 -/

/-- C6 counterexample: `_gql_query` returns `None` both on a transport
failure and on a 200 response carrying an `errors` array, so the caller
cannot distinguish the two failure kinds — refuting the claimed
Transport/GraphQL error distinction of the return value. -/
theorem c6_failures_indistinguishable :
    gqlQuery (TransportResult.failure : TransportResult Nat) = none
    ∧ gqlQuery (TransportResult.response 200 true (some 5)) = none
    ∧ gqlQuery (TransportResult.failure : TransportResult Nat)
        = gqlQuery (TransportResult.response 200 true (some 5)) := by
  refine ⟨rfl, by decide, by decide⟩

/-- C6 amended: `_gql_query` returns `None` on network/timeout failure,
`None` when the 200 response body contains an `errors` array, `None` on a
non-200 status, and the `data` payload otherwise; the failure kinds are
logged but collapsed to the same `None` return value. -/
theorem c6_gql_query_result {α : Type} (status : Nat) (hasErrors : Bool) (payload : Option α) :
    gqlQuery (TransportResult.failure : TransportResult α) = none
    ∧ (hasErrors = true → gqlQuery (TransportResult.response status hasErrors payload) = none)
    ∧ (status = 200 → hasErrors = false →
        gqlQuery (TransportResult.response status hasErrors payload) = payload)
    ∧ (status ≠ 200 → gqlQuery (TransportResult.response status hasErrors payload) = none) := by
  refine ⟨rfl, ?_, ?_, ?_⟩
  · intro h
    subst h
    simp [gqlQuery]
  · intro h1 h2
    subst h1
    subst h2
    simp [gqlQuery]
  · intro h
    simp [gqlQuery, h]

/-- C6 witness: a 200 response without errors yields its data payload. -/
theorem c6_gql_query_result_witness :
    gqlQuery (TransportResult.response 200 false (some 7)) = some 7 :=
  (c6_gql_query_result 200 false (some 7)).2.2.1 rfl rfl

/-! ## Claim C7 -/

/-- C7 counterexample: a campaign already in the map with previously observed
`claimed_rewards = 1` is overwritten by the freshly fetched record with
`claimed_rewards = 0` — the merge does NOT preserve the previously observed
value for campaigns present in the fresh fetch. -/
theorem c7_merge_overwrites_claimed :
    lookupCampaign (mergeCampaigns [("c7", c7Old)] [c7New]) "c7" = some c7New
    ∧ c7New.claimed_rewards ≠ c7Old.claimed_rewards := by
  decide

/-- C7 amended: the merge keyed by campaign id overwrites every campaign
present in the fresh fetch with the fresh record (fresh `claimed_rewards`
replacing the stored one), and preserves the stored entry — hence its
previously observed `claimed_rewards` — only for campaign ids absent from
the fresh fetch. -/
theorem c7_merge_semantics (m : CampaignMap) (fresh : List DropCampaign) (cid : String)
    (c : DropCampaign) :
    (cid ∉ fresh.map DropCampaign.campaign_id →
        lookupCampaign (mergeCampaigns m fresh) cid = lookupCampaign m cid)
    ∧ lookupCampaign (mergeCampaigns m [c]) c.campaign_id = some c :=
  ⟨fun h => lookupCampaign_mergeCampaigns_notin fresh m cid h,
   lookupCampaign_insertCampaign_self m c⟩

/-- C7 witness: a lookup of an id absent from the fresh fetch is unchanged by
the merge, and a fresh record lands under its own id. -/
theorem c7_merge_semantics_witness :
    lookupCampaign (mergeCampaigns [("c7", c7Old)] [c7New]) "other"
      = lookupCampaign [("c7", c7Old)] "other"
    ∧ lookupCampaign (mergeCampaigns [("c7", c7Old)] [c7New]) c7New.campaign_id = some c7New :=
  ⟨(c7_merge_semantics [("c7", c7Old)] [c7New] "other" c7New).1 (by decide),
   (c7_merge_semantics [("c7", c7Old)] [c7New] "other" c7New).2⟩

/-! ## Claim C8 -/

/-- C8 counterexample: in `TwitchMiner.main_loop` the `try` wraps the whole
polling `while`, so an error raised inside a single cycle terminates the loop
(`is_running` ends up False via the `finally`) instead of being followed by a
30-second backoff and another cycle. -/
theorem c8_main_loop_dies_on_cycle_error :
    mainLoopStep 60 true true CycleOutcome.err = (LoopAction.exitLoop, false)
    ∧ mainLoopStep 60 true true CycleOutcome.err ≠ (LoopAction.sleepContinue 30, true) := by
  decide

/-- C8 amended: in `DropsMinerManager._mining_loop` an error inside a cycle
is caught at the cycle level and followed by a 30-second backoff before the
next cycle, a normal cycle sleeps the 300s interval, and the loop never
changes the miner status (so it never escalates to ERROR); but in
`TwitchMiner.main_loop` a single cycle error terminates the polling loop. -/
theorem c8_cycle_error_handling :
    miningLoopStep MinerStatus.running CycleOutcome.err
      = (LoopAction.sleepContinue 30, MinerStatus.running)
    ∧ miningLoopStep MinerStatus.running CycleOutcome.ok
      = (LoopAction.sleepContinue 300, MinerStatus.running)
    ∧ (∀ s o, (miningLoopStep s o).2 = s)
    ∧ (∀ n, mainLoopStep n true true CycleOutcome.err = (LoopAction.exitLoop, false)) := by
  refine ⟨by decide, by decide, ?_, fun n => rfl⟩
  intro s o
  unfold miningLoopStep
  split
  · cases o <;> rfl
  · rfl

/-! ## Claim C9 -/

/-- C9 counterexample: with one unfinished watch-heartbeat task outstanding,
`TwitchMiner.stop` returns after merely clearing `is_running`; the watch task
list is untouched and the unfinished task is still running. -/
theorem c9_stop_leaves_watch_tasks :
    ((minerStop ⟨true, [⟨"chan1", false⟩]⟩).watchTasks.any (fun t => !t.finished)) = true
    ∧ minerStop ⟨true, [⟨"chan1", false⟩]⟩ = ⟨false, [⟨"chan1", false⟩]⟩ := by
  decide

/-- C9 amended: `DropsMinerManager.stop_mining` cancels the polling task and
awaits its cooperative exit before returning (status STOPPED, task no longer
running); `TwitchMiner.stop` only clears the running flag and neither cancels
nor awaits the watch-heartbeat tasks, which it leaves untouched. -/
theorem c9_stop_semantics (st : TwitchMinerState) (mt : ManagerTasks) :
    (minerStop st).watchTasks = st.watchTasks
    ∧ (minerStop st).is_running = false
    ∧ (stopMining mt).miningTaskRunning = false
    ∧ (stopMining mt).status = MinerStatus.stopped :=
  ⟨rfl, rfl, rfl, rfl⟩

/-! ## Claim C10 -/

/-- C10 confirmed: `get_auth_headers` returns an empty header dict (not an
error) when no credentials are loaded; and when the token is past its expiry
buffer and the refresh POST fails, it silently ignores the failure and still
returns Bearer headers carrying the stale access token, with the stored
credentials unchanged. -/
theorem c10_headers_on_missing_or_stale (now ob ex : Int) (cid ak : String)
    (rtd : Option String) (resp : Option TokenResponse)
    (hexp : isTokenExpired now (some ⟨some ak, rtd, some ob, some ex⟩) = true) :
    getAuthHeaders now cid resp none = ⟨[], none, 0⟩
    ∧ (getAuthHeaders now cid none (some ⟨some ak, rtd, some ob, some ex⟩)).headers
        = [("Authorization", "Bearer " ++ ak), ("Client-Id", cid)]
    ∧ (getAuthHeaders now cid none (some ⟨some ak, rtd, some ob, some ex⟩)).token_data
        = some ⟨some ak, rtd, some ob, some ex⟩ := by
  refine ⟨rfl, ?_, ?_⟩ <;>
    cases rtd <;> simp [getAuthHeaders, refreshToken, hexp]

/-- C10 witness: stale expired credentials with a refresh token whose refresh
POST fails: the stale Bearer header is returned unchanged. -/
theorem c10_headers_witness :
    (getAuthHeaders 1000 "ci" none (some ⟨some "stale", some "r", some 0, some 100⟩)).headers
      = [("Authorization", "Bearer " ++ "stale"), ("Client-Id", "ci")] :=
  (c10_headers_on_missing_or_stale 1000 0 100 "ci" "stale" (some "r") none (by decide)).2.1
